import Mathlib

/-!
# Verification of the Brickz progress tracker (`app.py`)

A shallow embedding of the logic of `app.py`: the Python string primitives
used by the reply parser (`str.split`, `str.startswith`, `str.replace`,
`str.strip`, `int(...)`) modelled over `List Char` / `String`, the
line-oriented reply parser inside `analyze_progress_with_gpt4`, the
request construction, the base64 image encoder, and the analyze-button
handler's treatment of session state.
-/

namespace Brickz

/-- Python whitespace test for ASCII text, as used by `str.strip()` and by
`int(...)`'s surrounding-whitespace tolerance (space, tab, newline,
carriage return, vertical tab, form feed). -/
def isPySpace (c : Char) : Bool :=
  c = ' ' || c = '\t' || c = '\n' || c = '\r' || c = '\x0b' || c = '\x0c'

/-- Python `s.startswith(p)`: `p` is a leading substring of `s`.
Case-sensitive and anchored at the first character. -/
def pyStartsWith (s p : String) : Bool :=
  p.data.isPrefixOf s.data

/-- Python `s.strip()`: remove leading and trailing whitespace. -/
def pyStrip (s : String) : String :=
  ⟨((s.data.dropWhile isPySpace).reverse.dropWhile isPySpace).reverse⟩

/-- Fuelled worker for `pyReplace`: scan left to right, replacing every
non-overlapping occurrence of `old` by `new`.  The fuel (initialised to
the length of the scanned list) makes the recursion structural; one
character is consumed per step, so the fuel never runs out on the
initial call. -/
def replaceFuel (old new : List Char) : Nat → List Char → List Char
  | 0, s => s
  | _ + 1, [] => []
  | f + 1, c :: cs =>
    if old.isPrefixOf (c :: cs) && !old.isEmpty then
      new ++ replaceFuel old new f (cs.drop (old.length - 1))
    else
      c :: replaceFuel old new f cs

/-- Python `s.replace(old, new)`: replace every non-overlapping occurrence
of `old`, scanning left to right.  (For the nonempty patterns used in
`app.py` this is exactly CPython's behaviour.) -/
def pyReplace (s old new : String) : String :=
  ⟨replaceFuel old.data new.data s.data.length s.data⟩

/-- Split a character sequence at every newline, keeping empty pieces,
as Python `s.split('\n')` does on the underlying code points. -/
def splitNlList : List Char → List (List Char)
  | [] => [[]]
  | c :: cs =>
    let r := splitNlList cs
    if c = '\n' then [] :: r
    else
      match r with
      | [] => [[c]]
      | l :: ls => (c :: l) :: ls

/-- Python `s.split('\n')`. -/
def pySplitNl (s : String) : List String :=
  (splitNlList s.data).map fun l => ⟨l⟩

/-- Decimal value of a nonempty all-digit character list; `none` otherwise. -/
def digitsVal (ds : List Char) : Option Nat :=
  if !ds.isEmpty && ds.all Char.isDigit then
    some (ds.foldl (fun a c => a * 10 + (c.toNat - 48)) 0)
  else
    none

/-- Python `int(s)` on ASCII input, returning `none` where CPython raises
`ValueError`: surrounding whitespace is ignored, one optional sign is
allowed, and the remainder must be a nonempty run of decimal digits.
(CPython's digit-grouping underscores and non-ASCII digits are not
modelled; the parser never feeds it such strings in the verified claims.) -/
def pyInt (s : String) : Option Int :=
  match (pyStrip s).data with
  | '+' :: ds => (digitsVal ds).map fun n => (n : Int)
  | '-' :: ds => (digitsVal ds).map fun n => -(n : Int)
  | ds => (digitsVal ds).map fun n => (n : Int)

/-- The structured analysis record built at the end of
`analyze_progress_with_gpt4` (`app.py` lines 188–194). -/
structure AnalysisResult where
  progress : Int
  completed : String
  missing : String
  notes : String
  raw_response : String
deriving DecidableEq, Repr

/-- The four mutable locals of the parsing scan
(`app.py` lines 169–172). -/
structure ScanState where
  progress_percent : Int
  completed : String
  missing : String
  notes : String
deriving DecidableEq, Repr

/-- Initial scan state: `progress_percent = 0`, the three texts empty
(`app.py` lines 169–172). -/
def initScan : ScanState := ⟨0, "", "", ""⟩

/-- One iteration of the `for line in result_text.split('\n')` loop
(`app.py` lines 174–186), translated clause by clause:
`if line.startswith('PROGRESS:')` parses
`line.replace('PROGRESS:', '').strip().replace('%', '')` as an integer
(0 on failure), and the three `elif` clauses store
`line.replace(PREFIX, '').strip()` into their field. -/
def scanLine (st : ScanState) (line : String) : ScanState :=
  if pyStartsWith line "PROGRESS:" then
    match pyInt (pyReplace (pyStrip (pyReplace line "PROGRESS:" "")) "%" "") with
    | some n => { st with progress_percent := n }
    | none => { st with progress_percent := 0 }
  else if pyStartsWith line "COMPLETED_PARTS:" then
    { st with completed := pyStrip (pyReplace line "COMPLETED_PARTS:" "") }
  else if pyStartsWith line "MISSING_PARTS:" then
    { st with missing := pyStrip (pyReplace line "MISSING_PARTS:" "") }
  else if pyStartsWith line "NOTES:" then
    { st with notes := pyStrip (pyReplace line "NOTES:" "") }
  else
    st

/-- The response-parsing section of `analyze_progress_with_gpt4`
(`app.py` lines 169–194): scan the reply line by line and package the
scan state together with the verbatim reply text. -/
def parseReply (result_text : String) : AnalysisResult :=
  let s := (pySplitNl result_text).foldl scanLine initScan
  ⟨s.progress_percent, s.completed, s.missing, s.notes, result_text⟩

/-- The value the `PROGRESS:` clause stores for a matching line
(`app.py` lines 176–180). -/
def progressOfLine (line : String) : Int :=
  match pyInt (pyReplace (pyStrip (pyReplace line "PROGRESS:" "")) "%" "") with
  | some n => n
  | none => 0

/-- The value an `elif` clause stores for a line matching the given
field label (`app.py` lines 181–186). -/
def fieldOfLine (p line : String) : String :=
  pyStrip (pyReplace line p "")

/-- The last line of the reply starting with the given field label —
the line whose value survives the scan. -/
def lastFieldLine (p : String) (lines : List String) : Option String :=
  (lines.filter fun l => pyStartsWith l p).getLast?

/-- Modelled from the spec's words ("strip prefix, trim") as the claims
read them: remove only the *leading* occurrence of the field label, then
trim.  To be compared with `fieldOfLine`, which is what the code does. -/
def specStripLabel (p line : String) : String :=
  pyStrip ⟨line.data.drop p.data.length⟩

/-! ## Base64 (the transport encoding used by `encode_image_to_base64`) -/

/-- The RFC 4648 standard base64 alphabet, as used by Python
`base64.b64encode`. -/
def b64Alphabet : List Char :=
  ['A', 'B', 'C', 'D', 'E', 'F', 'G', 'H', 'I', 'J', 'K', 'L', 'M',
   'N', 'O', 'P', 'Q', 'R', 'S', 'T', 'U', 'V', 'W', 'X', 'Y', 'Z',
   'a', 'b', 'c', 'd', 'e', 'f', 'g', 'h', 'i', 'j', 'k', 'l', 'm',
   'n', 'o', 'p', 'q', 'r', 's', 't', 'u', 'v', 'w', 'x', 'y', 'z',
   '0', '1', '2', '3', '4', '5', '6', '7', '8', '9', '+', '/']

/-- The base64 symbol for a 6-bit value. -/
def sextetChar (n : Nat) : Char :=
  b64Alphabet.getD n '='

/-- The 6-bit value of a base64 symbol, `none` for characters outside
the alphabet (in particular for the padding character `=`). -/
def charSextet (c : Char) : Option Nat :=
  b64Alphabet.findIdx? fun d => d = c

/-- Base64-encode a byte sequence (bytes as `Nat` values `< 256`),
producing the padded RFC 4648 text that Python `base64.b64encode`
produces: three bytes become four symbols, a trailing group of one or
two bytes is padded with `=`. -/
def b64encodeBytes : List Nat → List Char
  | [] => []
  | [a] => [sextetChar (a / 4), sextetChar (a % 4 * 16), '=', '=']
  | [a, b] => [sextetChar (a / 4), sextetChar (a % 4 * 16 + b / 16),
               sextetChar (b % 16 * 4), '=']
  | a :: b :: c :: rest =>
    sextetChar (a / 4) :: sextetChar (a % 4 * 16 + b / 16) ::
    sextetChar (b % 16 * 4 + c / 64) :: sextetChar (c % 64) ::
    b64encodeBytes rest

/-- Standard base64 decoding (the inverse operation the spec's
round-trip property refers to; Python `base64.b64decode`): consume four
symbols at a time, honouring `=` padding in the final group; `none` on
malformed input. -/
def b64decodeChars : List Char → Option (List Nat)
  | [] => some []
  | w :: x :: y :: z :: rest =>
    match charSextet w, charSextet x with
    | some sw, some sx =>
      if y = '=' then
        if z = '=' && rest.isEmpty then some [sw * 4 + sx / 16] else none
      else
        match charSextet y with
        | some sy =>
          if z = '=' then
            if rest.isEmpty then some [sw * 4 + sx / 16, sx % 16 * 16 + sy / 4]
            else none
          else
            match charSextet z with
            | some sz =>
              match b64decodeChars rest with
              | some t => some ((sw * 4 + sx / 16) :: (sx % 16 * 16 + sy / 4) ::
                                (sy % 4 * 64 + sz) :: t)
              | none => none
            | none => none
        | none => none
    | _, _ => none
  | _ => none

/-- `encode_image_to_base64` (`app.py` lines 69–73): serialise the image
to JPEG (the codec is an out-of-scope external collaborator, so the
image is represented here by its JPEG byte stream) and return the
base64 text of those bytes. -/
def encode_image_to_base64 (jpegBytes : List Nat) : String :=
  ⟨b64encodeBytes jpegBytes⟩

/-- Base64-decode a string back to its byte sequence. -/
def b64decodeString (s : String) : Option (List Nat) :=
  b64decodeChars s.data

/-! ## Request construction (`app.py` lines 106–164) -/

/-- One part of the multi-part message content: either a text block or an
inline `image_url` block with a detail level. -/
inductive ContentBlock where
  | text (t : String)
  | image_url (url : String) (detail : String)
deriving DecidableEq, Repr

/-- The instruction block opening the message content
(`app.py` lines 107–125), verbatim. -/
def instructionText : String :=
  "You are analyzing LEGO building progress. I will show you 3 reference images of the completed LEGO structure (from different angles), followed by the user's current progress image.\n\nPlease analyze:\n1. What percentage of the structure is complete? (0-100%)\n2. Which parts are built correctly?\n3. Which parts are missing or incomplete?\n4. Any differences in color, position, or brick placement?\n\nProvide your response in this exact format:\nPROGRESS: [number]%\nCOMPLETED_PARTS: [description]\nMISSING_PARTS: [description]\nNOTES: [any additional observations in concise form]\n\nHere are the reference images of the completed structure:"

/-- The label/image block pairs appended for the reference images by the
`for i, ref_img in enumerate(reference_images, 1)` loop
(`app.py` lines 128–140); `k` is the running 1-based index. -/
def refImageBlocks (k : Nat) : List String → List ContentBlock
  | [] => []
  | b64 :: rest =>
    ContentBlock.text ("\n\nReference Image " ++ toString k ++ ":") ::
    ContentBlock.image_url ("data:image/jpeg;base64," ++ b64) "high" ::
    refImageBlocks (k + 1) rest

/-- The full message content (`app.py` lines 106–153): instruction block,
then the labelled reference images, then the labelled current image.
The images are given as the base64 strings already produced by
`encode_image_to_base64`. -/
def buildContent (refB64s : List String) (currB64 : String) : List ContentBlock :=
  ContentBlock.text instructionText ::
  (refImageBlocks 1 refB64s ++
    [ContentBlock.text "\n\nUser's Current Progress Image:",
     ContentBlock.image_url ("data:image/jpeg;base64," ++ currB64) "high"])

/-- A chat message. -/
structure Message where
  role : String
  content : List ContentBlock
deriving DecidableEq, Repr

/-- The chat-completion request issued by `analyze_progress_with_gpt4`
(`app.py` lines 155–164). -/
structure ChatRequest where
  model : String
  messages : List Message
  max_tokens : Nat
deriving DecidableEq, Repr

/-- The request built from the reference images and the current image
(each given as its JPEG byte stream): model `gpt-4o-mini`, a single
user message with the multi-part content, `max_tokens = 500`
(`app.py` lines 97–164). -/
def buildRequest (refJpegs : List (List Nat)) (currJpeg : List Nat) : ChatRequest :=
  { model := "gpt-4o-mini"
    messages := [⟨"user", buildContent (refJpegs.map encode_image_to_base64)
                    (encode_image_to_base64 currJpeg)⟩]
    max_tokens := 500 }

/-! ## Error handling and session state (`app.py` lines 97–198, 294–301) -/

/-- The outcome of the network round trip: the reply text on success, or
the exception's message when anything in the `try` block raises. -/
abbrev CallOutcome := Except String String

/-- `analyze_progress_with_gpt4` as observed by its caller: on a
successful call the parsed result and no UI messages; on any exception
the `except` clause at lines 196–198 shows one error message
(`st.error(f"Error analyzing images: {str(e)}")`) and returns `None`. -/
def analyze_progress_with_gpt4 (outcome : CallOutcome) :
    Option AnalysisResult × List String :=
  match outcome with
  | Except.ok result_text => (some (parseReply result_text), [])
  | Except.error e => (none, ["Error analyzing images: " ++ e])

/-- The per-session UI state touched by the analyze button
(`st.session_state.current_image`, `st.session_state.progress_result`). -/
structure SessionState where
  current_image : Option (List Nat)
  progress_result : Option AnalysisResult
deriving DecidableEq, Repr

/-- The analyze-button handler (`app.py` lines 294–301): run the
analysis and store the result into `progress_result` only when it is
not `None`; `current_image` is never touched. Returns the new state and
the UI messages emitted. -/
def analyzeButtonHandler (state : SessionState) (outcome : CallOutcome) :
    SessionState × List String :=
  let (result, msgs) := analyze_progress_with_gpt4 outcome
  (match result with
   | some r => { state with progress_result := some r }
   | none => state,
   msgs)

end Brickz

namespace Brickz

/-! ## Helper lemmas about the scan -/

theorem pyStartsWith_false_of_true {l p q : String}
    (hpq : ¬ p.data <+: q.data) (hqp : ¬ q.data <+: p.data)
    (h : pyStartsWith l p = true) : pyStartsWith l q = false := by
  cases hq : pyStartsWith l q
  · rfl
  · exfalso
    unfold pyStartsWith at h hq
    rw [List.isPrefixOf_iff_prefix] at h hq
    rcases List.prefix_or_prefix_of_prefix h hq with hh | hh
    · exact hpq hh
    · exact hqp hh

theorem progress_false_of_completed {l : String}
    (h : pyStartsWith l "COMPLETED_PARTS:" = true) :
    pyStartsWith l "PROGRESS:" = false :=
  pyStartsWith_false_of_true (by decide) (by decide) h

theorem progress_false_of_missing {l : String}
    (h : pyStartsWith l "MISSING_PARTS:" = true) :
    pyStartsWith l "PROGRESS:" = false :=
  pyStartsWith_false_of_true (by decide) (by decide) h

theorem completed_false_of_missing {l : String}
    (h : pyStartsWith l "MISSING_PARTS:" = true) :
    pyStartsWith l "COMPLETED_PARTS:" = false :=
  pyStartsWith_false_of_true (by decide) (by decide) h

theorem progress_false_of_notes {l : String}
    (h : pyStartsWith l "NOTES:" = true) :
    pyStartsWith l "PROGRESS:" = false :=
  pyStartsWith_false_of_true (by decide) (by decide) h

theorem completed_false_of_notes {l : String}
    (h : pyStartsWith l "NOTES:" = true) :
    pyStartsWith l "COMPLETED_PARTS:" = false :=
  pyStartsWith_false_of_true (by decide) (by decide) h

theorem missing_false_of_notes {l : String}
    (h : pyStartsWith l "NOTES:" = true) :
    pyStartsWith l "MISSING_PARTS:" = false :=
  pyStartsWith_false_of_true (by decide) (by decide) h

theorem scanLine_progress_line (st : ScanState) {l : String}
    (h : pyStartsWith l "PROGRESS:" = true) :
    scanLine st l = { st with progress_percent := progressOfLine l } := by
  unfold scanLine progressOfLine
  simp only [h, if_true]
  cases pyInt (pyReplace (pyStrip (pyReplace l "PROGRESS:" "")) "%" "") <;> rfl

theorem scanLine_completed_line (st : ScanState) {l : String}
    (h : pyStartsWith l "COMPLETED_PARTS:" = true) :
    scanLine st l = { st with completed := fieldOfLine "COMPLETED_PARTS:" l } := by
  have hp := progress_false_of_completed h
  simp [scanLine, fieldOfLine, hp, h]

theorem scanLine_missing_line (st : ScanState) {l : String}
    (h : pyStartsWith l "MISSING_PARTS:" = true) :
    scanLine st l = { st with missing := fieldOfLine "MISSING_PARTS:" l } := by
  have hp := progress_false_of_missing h
  have hc := completed_false_of_missing h
  simp [scanLine, fieldOfLine, hp, hc, h]

theorem scanLine_notes_line (st : ScanState) {l : String}
    (h : pyStartsWith l "NOTES:" = true) :
    scanLine st l = { st with notes := fieldOfLine "NOTES:" l } := by
  have hp := progress_false_of_notes h
  have hc := completed_false_of_notes h
  have hm := missing_false_of_notes h
  simp [scanLine, fieldOfLine, hp, hc, hm, h]

theorem scanLine_progress_of_not (st : ScanState) {l : String}
    (h : pyStartsWith l "PROGRESS:" = false) :
    (scanLine st l).progress_percent = st.progress_percent := by
  cases hc : pyStartsWith l "COMPLETED_PARTS:" <;>
    cases hm : pyStartsWith l "MISSING_PARTS:" <;>
      cases hn : pyStartsWith l "NOTES:" <;>
        simp [scanLine, h, hc, hm, hn]

theorem scanLine_completed_of_not (st : ScanState) {l : String}
    (h : pyStartsWith l "COMPLETED_PARTS:" = false) :
    (scanLine st l).completed = st.completed := by
  cases hp : pyStartsWith l "PROGRESS:"
  · cases hm : pyStartsWith l "MISSING_PARTS:" <;>
      cases hn : pyStartsWith l "NOTES:" <;>
        simp [scanLine, hp, h, hm, hn]
  · rw [scanLine_progress_line st hp]

theorem scanLine_missing_of_not (st : ScanState) {l : String}
    (h : pyStartsWith l "MISSING_PARTS:" = false) :
    (scanLine st l).missing = st.missing := by
  cases hp : pyStartsWith l "PROGRESS:"
  · cases hc : pyStartsWith l "COMPLETED_PARTS:" <;>
      cases hn : pyStartsWith l "NOTES:" <;>
        simp [scanLine, hp, hc, h, hn]
  · rw [scanLine_progress_line st hp]

theorem scanLine_notes_of_not (st : ScanState) {l : String}
    (h : pyStartsWith l "NOTES:" = false) :
    (scanLine st l).notes = st.notes := by
  cases hp : pyStartsWith l "PROGRESS:"
  · cases hc : pyStartsWith l "COMPLETED_PARTS:" <;>
      cases hm : pyStartsWith l "MISSING_PARTS:" <;>
        simp [scanLine, hp, hc, hm, h]
  · rw [scanLine_progress_line st hp]

theorem foldl_scan_progress (lines : List String) (st : ScanState) :
    (lines.foldl scanLine st).progress_percent =
      ((lastFieldLine "PROGRESS:" lines).map progressOfLine).getD st.progress_percent := by
  induction lines using List.reverseRecOn with
  | nil => rfl
  | append_singleton ls l ih =>
    rw [List.foldl_append, List.foldl_cons, List.foldl_nil]
    unfold lastFieldLine
    rw [List.filter_append]
    cases hp : pyStartsWith l "PROGRESS:"
    · rw [scanLine_progress_of_not _ hp, ih,
        List.filter_cons_of_neg (by simp [hp]), List.filter_nil, List.append_nil]
      rfl
    · rw [scanLine_progress_line _ hp,
        List.filter_cons_of_pos (by simp [hp]), List.filter_nil, List.getLast?_concat]
      rfl

theorem foldl_scan_completed (lines : List String) (st : ScanState) :
    (lines.foldl scanLine st).completed =
      ((lastFieldLine "COMPLETED_PARTS:" lines).map
        (fieldOfLine "COMPLETED_PARTS:")).getD st.completed := by
  induction lines using List.reverseRecOn with
  | nil => rfl
  | append_singleton ls l ih =>
    rw [List.foldl_append, List.foldl_cons, List.foldl_nil]
    unfold lastFieldLine
    rw [List.filter_append]
    cases hc : pyStartsWith l "COMPLETED_PARTS:"
    · rw [scanLine_completed_of_not _ hc, ih,
        List.filter_cons_of_neg (by simp [hc]), List.filter_nil, List.append_nil]
      rfl
    · rw [scanLine_completed_line _ hc,
        List.filter_cons_of_pos (by simp [hc]), List.filter_nil, List.getLast?_concat]
      rfl

theorem foldl_scan_missing (lines : List String) (st : ScanState) :
    (lines.foldl scanLine st).missing =
      ((lastFieldLine "MISSING_PARTS:" lines).map
        (fieldOfLine "MISSING_PARTS:")).getD st.missing := by
  induction lines using List.reverseRecOn with
  | nil => rfl
  | append_singleton ls l ih =>
    rw [List.foldl_append, List.foldl_cons, List.foldl_nil]
    unfold lastFieldLine
    rw [List.filter_append]
    cases hm : pyStartsWith l "MISSING_PARTS:"
    · rw [scanLine_missing_of_not _ hm, ih,
        List.filter_cons_of_neg (by simp [hm]), List.filter_nil, List.append_nil]
      rfl
    · rw [scanLine_missing_line _ hm,
        List.filter_cons_of_pos (by simp [hm]), List.filter_nil, List.getLast?_concat]
      rfl

theorem foldl_scan_notes (lines : List String) (st : ScanState) :
    (lines.foldl scanLine st).notes =
      ((lastFieldLine "NOTES:" lines).map (fieldOfLine "NOTES:")).getD st.notes := by
  induction lines using List.reverseRecOn with
  | nil => rfl
  | append_singleton ls l ih =>
    rw [List.foldl_append, List.foldl_cons, List.foldl_nil]
    unfold lastFieldLine
    rw [List.filter_append]
    cases hn : pyStartsWith l "NOTES:"
    · rw [scanLine_notes_of_not _ hn, ih,
        List.filter_cons_of_neg (by simp [hn]), List.filter_nil, List.append_nil]
      rfl
    · rw [scanLine_notes_line _ hn,
        List.filter_cons_of_pos (by simp [hn]), List.filter_nil, List.getLast?_concat]
      rfl

theorem parseReply_progress (text : String) :
    (parseReply text).progress =
      ((lastFieldLine "PROGRESS:" (pySplitNl text)).map progressOfLine).getD 0 :=
  foldl_scan_progress (pySplitNl text) initScan

theorem parseReply_completed (text : String) :
    (parseReply text).completed =
      ((lastFieldLine "COMPLETED_PARTS:" (pySplitNl text)).map
        (fieldOfLine "COMPLETED_PARTS:")).getD "" :=
  foldl_scan_completed (pySplitNl text) initScan

theorem parseReply_missing (text : String) :
    (parseReply text).missing =
      ((lastFieldLine "MISSING_PARTS:" (pySplitNl text)).map
        (fieldOfLine "MISSING_PARTS:")).getD "" :=
  foldl_scan_missing (pySplitNl text) initScan

theorem parseReply_notes (text : String) :
    (parseReply text).notes =
      ((lastFieldLine "NOTES:" (pySplitNl text)).map (fieldOfLine "NOTES:")).getD "" :=
  foldl_scan_notes (pySplitNl text) initScan

/-! ## Helper lemmas about base64 and the request -/

theorem charSextet_sextetChar_fin :
    ∀ s : Fin 64, charSextet (sextetChar s.val) = some s.val := by decide

theorem sextetChar_ne_pad_fin : ∀ s : Fin 64, sextetChar s.val ≠ '=' := by decide

theorem charSextet_sextetChar {n : Nat} (h : n < 64) :
    charSextet (sextetChar n) = some n :=
  charSextet_sextetChar_fin ⟨n, h⟩

theorem sextetChar_ne_pad {n : Nat} (h : n < 64) : sextetChar n ≠ '=' :=
  sextetChar_ne_pad_fin ⟨n, h⟩

theorem b64decode_encode : ∀ bs : List Nat, (∀ b ∈ bs, b < 256) →
    b64decodeChars (b64encodeBytes bs) = some bs
  | [], _ => rfl
  | [a], h => by
    have ha : a < 256 := h a (by simp)
    show b64decodeChars
      [sextetChar (a / 4), sextetChar (a % 4 * 16), '=', '='] = some [a]
    rw [b64decodeChars]
    rw [charSextet_sextetChar (by omega), charSextet_sextetChar (by omega)]
    simp only [if_pos rfl]
    norm_num
    omega
  | [a, b], h => by
    have ha : a < 256 := h a (by simp)
    have hb : b < 256 := h b (by simp)
    show b64decodeChars
      [sextetChar (a / 4), sextetChar (a % 4 * 16 + b / 16),
       sextetChar (b % 16 * 4), '='] = some [a, b]
    rw [b64decodeChars]
    rw [charSextet_sextetChar (by omega), charSextet_sextetChar (by omega)]
    dsimp only
    rw [if_neg (sextetChar_ne_pad (by omega))]
    rw [charSextet_sextetChar (by omega)]
    dsimp only
    simp only [if_pos rfl, List.isEmpty_nil, if_true]
    refine congrArg some ?_
    have e1 : a / 4 * 4 + (a % 4 * 16 + b / 16) / 16 = a := by omega
    have e2 : (a % 4 * 16 + b / 16) % 16 * 16 + b % 16 * 4 / 4 = b := by omega
    rw [e1, e2]
  | a :: b :: c :: d :: rest, h => by
    have ha : a < 256 := h a (by simp)
    have hb : b < 256 := h b (by simp)
    have hc : c < 256 := h c (by simp)
    have ih := b64decode_encode (d :: rest) fun x hx => h x (by simp [hx])
    show b64decodeChars
      (sextetChar (a / 4) :: sextetChar (a % 4 * 16 + b / 16) ::
       sextetChar (b % 16 * 4 + c / 64) :: sextetChar (c % 64) ::
       b64encodeBytes (d :: rest)) = some (a :: b :: c :: d :: rest)
    rw [b64decodeChars]
    rw [charSextet_sextetChar (by omega), charSextet_sextetChar (by omega)]
    dsimp only
    rw [if_neg (sextetChar_ne_pad (by omega))]
    rw [charSextet_sextetChar (by omega)]
    dsimp only
    rw [if_neg (sextetChar_ne_pad (by omega))]
    rw [charSextet_sextetChar (by omega)]
    dsimp only
    rw [ih]
    refine congrArg some ?_
    have e1 : a / 4 * 4 + (a % 4 * 16 + b / 16) / 16 = a := by omega
    have e2 : (a % 4 * 16 + b / 16) % 16 * 16 + (b % 16 * 4 + c / 64) / 4 = b := by
      omega
    have e3 : (b % 16 * 4 + c / 64) % 4 * 64 + c % 64 = c := by omega
    rw [e1, e2, e3]
  | [a, b, c], h => by
    have ha : a < 256 := h a (by simp)
    have hb : b < 256 := h b (by simp)
    have hc : c < 256 := h c (by simp)
    show b64decodeChars
      (sextetChar (a / 4) :: sextetChar (a % 4 * 16 + b / 16) ::
       sextetChar (b % 16 * 4 + c / 64) :: sextetChar (c % 64) ::
       b64encodeBytes []) = some [a, b, c]
    rw [b64decodeChars]
    rw [charSextet_sextetChar (by omega), charSextet_sextetChar (by omega)]
    dsimp only
    rw [if_neg (sextetChar_ne_pad (by omega))]
    rw [charSextet_sextetChar (by omega)]
    dsimp only
    rw [if_neg (sextetChar_ne_pad (by omega))]
    rw [charSextet_sextetChar (by omega)]
    dsimp only
    show some _ = _
    refine congrArg some ?_
    have e1 : a / 4 * 4 + (a % 4 * 16 + b / 16) / 16 = a := by omega
    have e2 : (a % 4 * 16 + b / 16) % 16 * 16 + (b % 16 * 4 + c / 64) / 4 = b := by
      omega
    have e3 : (b % 16 * 4 + c / 64) % 4 * 64 + c % 64 = c := by omega
    rw [e1, e2, e3]

theorem refImageBlocks_eq_flatMap : ∀ (xs : List String) (k : Nat),
    refImageBlocks k xs =
      (List.enumFrom k xs).flatMap fun p =>
        [ContentBlock.text ("\n\nReference Image " ++ toString p.1 ++ ":"),
         ContentBlock.image_url ("data:image/jpeg;base64," ++ p.2) "high"]
  | [], _ => rfl
  | x :: xs, k => by
    rw [refImageBlocks, List.enumFrom_cons, List.flatMap_cons,
      refImageBlocks_eq_flatMap xs (k + 1)]
    rfl

/-! ## The claims -/

/-- C1 counterexample: the claim fails as stated.  In the reply
`"PROGRESS: 5\nCOMPLETED_PARTS: a\nMISSING_PARTS: b\nNOTES: NOTES: hi"`
exactly one line begins with each of the four labels, yet the stored
notes text is `"hi"`, not the notes line with (only) the leading label
stripped and trimmed (`"NOTES: hi"`): `str.replace` removes *every*
occurrence of the label, not just the leading one. -/
theorem C1_counterexample :
    (pySplitNl "PROGRESS: 5\nCOMPLETED_PARTS: a\nMISSING_PARTS: b\nNOTES: NOTES: hi").filter
        (fun l => pyStartsWith l "PROGRESS:") = ["PROGRESS: 5"]
  ∧ (pySplitNl "PROGRESS: 5\nCOMPLETED_PARTS: a\nMISSING_PARTS: b\nNOTES: NOTES: hi").filter
        (fun l => pyStartsWith l "COMPLETED_PARTS:") = ["COMPLETED_PARTS: a"]
  ∧ (pySplitNl "PROGRESS: 5\nCOMPLETED_PARTS: a\nMISSING_PARTS: b\nNOTES: NOTES: hi").filter
        (fun l => pyStartsWith l "MISSING_PARTS:") = ["MISSING_PARTS: b"]
  ∧ (pySplitNl "PROGRESS: 5\nCOMPLETED_PARTS: a\nMISSING_PARTS: b\nNOTES: NOTES: hi").filter
        (fun l => pyStartsWith l "NOTES:") = ["NOTES: NOTES: hi"]
  ∧ specStripLabel "NOTES:" "NOTES: NOTES: hi" = "NOTES: hi"
  ∧ (parseReply "PROGRESS: 5\nCOMPLETED_PARTS: a\nMISSING_PARTS: b\nNOTES: NOTES: hi").notes
      = "hi"
  ∧ (parseReply "PROGRESS: 5\nCOMPLETED_PARTS: a\nMISSING_PARTS: b\nNOTES: NOTES: hi").notes
      ≠ specStripLabel "NOTES:" "NOTES: NOTES: hi" := by
  decide

/-- C1 (amended): for every reply text containing exactly one line
beginning with each of the four labels, the parsed result's four
structured fields equal the corresponding line's value with *every
occurrence* of the label removed and whitespace trimmed (for the usual
case of a single leading occurrence this is the label stripped and
trimmed), with any `%` character removed from the numeric field (0 when
unparseable), and `raw_response` equal to the full text.  The stub
reply instance of the claim is the witness theorem. -/
theorem C1_unique_lines_determine_fields (text pl cl ml nl : String)
    (hP : (pySplitNl text).filter (fun l => pyStartsWith l "PROGRESS:") = [pl])
    (hC : (pySplitNl text).filter (fun l => pyStartsWith l "COMPLETED_PARTS:") = [cl])
    (hM : (pySplitNl text).filter (fun l => pyStartsWith l "MISSING_PARTS:") = [ml])
    (hN : (pySplitNl text).filter (fun l => pyStartsWith l "NOTES:") = [nl]) :
    parseReply text =
      ⟨progressOfLine pl, fieldOfLine "COMPLETED_PARTS:" cl,
       fieldOfLine "MISSING_PARTS:" ml, fieldOfLine "NOTES:" nl, text⟩ := by
  have hP' : (parseReply text).progress = progressOfLine pl := by
    rw [parseReply_progress]
    unfold lastFieldLine
    rw [hP]
    rfl
  have hC' : (parseReply text).completed = fieldOfLine "COMPLETED_PARTS:" cl := by
    rw [parseReply_completed]
    unfold lastFieldLine
    rw [hC]
    rfl
  have hM' : (parseReply text).missing = fieldOfLine "MISSING_PARTS:" ml := by
    rw [parseReply_missing]
    unfold lastFieldLine
    rw [hM]
    rfl
  have hN' : (parseReply text).notes = fieldOfLine "NOTES:" nl := by
    rw [parseReply_notes]
    unfold lastFieldLine
    rw [hN]
    rfl
  calc parseReply text
      = ⟨(parseReply text).progress, (parseReply text).completed,
         (parseReply text).missing, (parseReply text).notes,
         (parseReply text).raw_response⟩ := rfl
    _ = ⟨progressOfLine pl, fieldOfLine "COMPLETED_PARTS:" cl,
         fieldOfLine "MISSING_PARTS:" ml, fieldOfLine "NOTES:" nl, text⟩ := by
        rw [hP', hC', hM', hN']
        rfl

/-- C1 witness: the spec's stub reply
`PROGRESS: 45%\nCOMPLETED_PARTS: base plate\nMISSING_PARTS: roof\nNOTES: good start`
yields progress 45, completed `base plate`, missing `roof`, notes
`good start`, and `raw_response` equal to the full text. -/
theorem C1_unique_lines_determine_fields_witness :
    parseReply "PROGRESS: 45%\nCOMPLETED_PARTS: base plate\nMISSING_PARTS: roof\nNOTES: good start" =
      ⟨45, "base plate", "roof", "good start",
       "PROGRESS: 45%\nCOMPLETED_PARTS: base plate\nMISSING_PARTS: roof\nNOTES: good start"⟩ := by
  rw [C1_unique_lines_determine_fields
    "PROGRESS: 45%\nCOMPLETED_PARTS: base plate\nMISSING_PARTS: roof\nNOTES: good start"
    "PROGRESS: 45%" "COMPLETED_PARTS: base plate" "MISSING_PARTS: roof" "NOTES: good start"
    (by decide) (by decide) (by decide) (by decide)]
  decide

/-- C2 counterexample: the reply `PROGRESS: 150%` parses to progress
150, which is outside the claimed range 0–100: the code stores the
parsed integer without clamping. -/
theorem C2_counterexample :
    (parseReply "PROGRESS: 150%").progress = 150
  ∧ ¬ (0 ≤ (parseReply "PROGRESS: 150%").progress
        ∧ (parseReply "PROGRESS: 150%").progress ≤ 100) := by
  decide

/-- C2 (amended): the stored progress is an integer, 0 when the value is
unparseable or no `PROGRESS:` line occurs, and it lies in 0–100 whenever
every `PROGRESS:` line of the reply carries a value in that range — but
an out-of-range value on a `PROGRESS:` line is stored unclamped. -/
theorem C2_progress_range (text : String)
    (h : ∀ l ∈ pySplitNl text, pyStartsWith l "PROGRESS:" = true →
      0 ≤ progressOfLine l ∧ progressOfLine l ≤ 100) :
    0 ≤ (parseReply text).progress ∧ (parseReply text).progress ≤ 100 := by
  rw [parseReply_progress]
  cases hl : lastFieldLine "PROGRESS:" (pySplitNl text) with
  | none => exact ⟨le_refl 0, by norm_num⟩
  | some l =>
    have hmem : l ∈ (pySplitNl text).filter fun x => pyStartsWith x "PROGRESS:" := by
      unfold lastFieldLine at hl
      rcases List.getLast?_eq_some_iff.mp hl with ⟨ys, hys⟩
      rw [hys]
      simp
    have hm := List.mem_filter.mp hmem
    exact h l hm.1 hm.2

/-- C2 witness: on the benign reply `PROGRESS: 45%` the stored progress
lies in 0–100. -/
theorem C2_progress_range_witness :
    0 ≤ (parseReply "PROGRESS: 45%").progress
  ∧ (parseReply "PROGRESS: 45%").progress ≤ 100 :=
  C2_progress_range "PROGRESS: 45%" (by decide)

/-- C3: the progress value retained is the one derived from the last
line beginning with `PROGRESS:` (the scan has no early exit, so every
matching line overwrites the previous value); in particular with
duplicate lines the last occurrence wins. -/
theorem C3_last_progress_line_wins (text l : String)
    (h : lastFieldLine "PROGRESS:" (pySplitNl text) = some l) :
    (parseReply text).progress = progressOfLine l := by
  rw [parseReply_progress, h]
  rfl

/-- C3 witness: a reply with `PROGRESS: 10%` followed by
`PROGRESS: 90%` parses to progress 90. -/
theorem C3_last_progress_line_wins_witness :
    lastFieldLine "PROGRESS:" (pySplitNl "PROGRESS: 10%\nPROGRESS: 90%")
      = some "PROGRESS: 90%"
  ∧ (parseReply "PROGRESS: 10%\nPROGRESS: 90%").progress = 90 := by
  refine ⟨by decide, ?_⟩
  rw [C3_last_progress_line_wins "PROGRESS: 10%\nPROGRESS: 90%" "PROGRESS: 90%" (by decide)]
  decide

/-- C4: parsing never raises (the embedded parser `parseReply` is a
total function): a field whose line is absent keeps its default (empty
string; 0 for progress), and a `PROGRESS:` line whose remainder does
not parse as an integer yields progress 0 rather than a propagated
failure. -/
theorem C4_graceful_degradation (text : String) :
    (lastFieldLine "PROGRESS:" (pySplitNl text) = none →
      (parseReply text).progress = 0)
  ∧ (lastFieldLine "COMPLETED_PARTS:" (pySplitNl text) = none →
      (parseReply text).completed = "")
  ∧ (lastFieldLine "MISSING_PARTS:" (pySplitNl text) = none →
      (parseReply text).missing = "")
  ∧ (lastFieldLine "NOTES:" (pySplitNl text) = none →
      (parseReply text).notes = "")
  ∧ (∀ l, lastFieldLine "PROGRESS:" (pySplitNl text) = some l →
      pyInt (pyReplace (pyStrip (pyReplace l "PROGRESS:" "")) "%" "") = none →
      (parseReply text).progress = 0) := by
  refine ⟨?_, ?_, ?_, ?_, ?_⟩
  · intro h
    rw [parseReply_progress, h]
    rfl
  · intro h
    rw [parseReply_completed, h]
    rfl
  · intro h
    rw [parseReply_missing, h]
    rfl
  · intro h
    rw [parseReply_notes, h]
    rfl
  · intro l hl hn
    rw [parseReply_progress, hl]
    show progressOfLine l = 0
    unfold progressOfLine
    rw [hn]

/-- C4 witness: `PROGRESS: unknown%` gives progress 0 with the other
fields at their defaults, and a reply with no field lines leaves notes
empty. -/
theorem C4_graceful_degradation_witness :
    (parseReply "PROGRESS: unknown%").progress = 0
  ∧ (parseReply "PROGRESS: unknown%").completed = ""
  ∧ (parseReply "no structured fields here").notes = "" :=
  ⟨(C4_graceful_degradation "PROGRESS: unknown%").2.2.2.2 "PROGRESS: unknown%"
      (by decide) (by decide),
   (C4_graceful_degradation "PROGRESS: unknown%").2.1 (by decide),
   (C4_graceful_degradation "no structured fields here").2.2.2.1 (by decide)⟩

/-- C5 counterexample: the claim fails as stated.  For the line
`COMPLETED_PARTS: alpha COMPLETED_PARTS: beta` the stored text is
`alpha  beta` — the repeated occurrence of the label inside the line is
*removed*, not preserved, because `str.replace` replaces every
occurrence. -/
theorem C5_counterexample :
    pyStartsWith "COMPLETED_PARTS: alpha COMPLETED_PARTS: beta" "COMPLETED_PARTS:" = true
  ∧ (parseReply "COMPLETED_PARTS: alpha COMPLETED_PARTS: beta").completed = "alpha  beta"
  ∧ specStripLabel "COMPLETED_PARTS:" "COMPLETED_PARTS: alpha COMPLETED_PARTS: beta"
      = "alpha COMPLETED_PARTS: beta"
  ∧ (parseReply "COMPLETED_PARTS: alpha COMPLETED_PARTS: beta").completed
      ≠ specStripLabel "COMPLETED_PARTS:" "COMPLETED_PARTS: alpha COMPLETED_PARTS: beta" := by
  decide

/-- C5 (amended): for the last line of the reply beginning with
`COMPLETED_PARTS:` (likewise `MISSING_PARTS:` and `NOTES:`), the stored
field text equals that line with *every* occurrence of the label string
removed and surrounding whitespace trimmed; other text in the line is
preserved, but a repeated occurrence of the label string is removed. -/
theorem C5_label_removed_everywhere (text l : String) :
    (lastFieldLine "COMPLETED_PARTS:" (pySplitNl text) = some l →
      (parseReply text).completed = fieldOfLine "COMPLETED_PARTS:" l)
  ∧ (lastFieldLine "MISSING_PARTS:" (pySplitNl text) = some l →
      (parseReply text).missing = fieldOfLine "MISSING_PARTS:" l)
  ∧ (lastFieldLine "NOTES:" (pySplitNl text) = some l →
      (parseReply text).notes = fieldOfLine "NOTES:" l) := by
  refine ⟨?_, ?_, ?_⟩
  · intro h
    rw [parseReply_completed, h]
    rfl
  · intro h
    rw [parseReply_missing, h]
    rfl
  · intro h
    rw [parseReply_notes, h]
    rfl

/-- C5 witness: the counterexample line, evaluated through the amended
statement. -/
theorem C5_label_removed_everywhere_witness :
    (parseReply "COMPLETED_PARTS: alpha COMPLETED_PARTS: beta").completed = "alpha  beta" := by
  rw [(C5_label_removed_everywhere "COMPLETED_PARTS: alpha COMPLETED_PARTS: beta"
    "COMPLETED_PARTS: alpha COMPLETED_PARTS: beta").1 (by decide)]
  decide

/-- C6: for every reply text, regardless of parse success, the
`raw_response` field of the parsed result equals the reply text
unmodified. -/
theorem C6_raw_response_verbatim (text : String) :
    (parseReply text).raw_response = text := rfl

/-- C7: when any exception occurs during the analysis call, the
operation emits exactly one visible error message and returns no
result, and the handler leaves the previously stored UI state (prior
progress result and captured current image) unchanged — no partial
result is stored. -/
theorem C7_failure_leaves_state_unchanged (state : SessionState) (e : String) :
    analyzeButtonHandler state (Except.error e)
      = (state, ["Error analyzing images: " ++ e])
  ∧ (analyze_progress_with_gpt4 (Except.error e)).1 = none :=
  ⟨rfl, rfl⟩

/-- C8: the constructed request has the fixed model identifier
`gpt-4o-mini`, `max_tokens = 500`, and exactly one (user) message whose
multi-part content is, in order: the instruction text block; then for
each reference image `i` (1-based, in the given order) a text label
`Reference Image i:` followed by that image as a high-detail inline
data URI; then the label `User's Current Progress Image:` followed by
the current image as a high-detail inline data URI. -/
theorem C8_request_structure (refJpegs : List (List Nat)) (currJpeg : List Nat) :
    buildRequest refJpegs currJpeg =
      { model := "gpt-4o-mini"
        messages := [⟨"user",
          ContentBlock.text instructionText ::
          (((List.enumFrom 1 (refJpegs.map encode_image_to_base64)).flatMap fun p =>
              [ContentBlock.text ("\n\nReference Image " ++ toString p.1 ++ ":"),
               ContentBlock.image_url ("data:image/jpeg;base64," ++ p.2) "high"]) ++
            [ContentBlock.text "\n\nUser's Current Progress Image:",
             ContentBlock.image_url
               ("data:image/jpeg;base64," ++ encode_image_to_base64 currJpeg) "high"])⟩]
        max_tokens := 500 } := by
  unfold buildRequest buildContent
  rw [refImageBlocks_eq_flatMap]

/-- C9: the encoder produces the base64 text of the image's JPEG byte
stream, and base64-decoding the encoder's output yields back exactly
the bytes that were encoded (byte-identical round trip). -/
theorem C9_base64_roundtrip (jpegBytes : List Nat)
    (h : ∀ b ∈ jpegBytes, b < 256) :
    b64decodeString (encode_image_to_base64 jpegBytes) = some jpegBytes :=
  b64decode_encode jpegBytes h

/-- C9 witness: the four-byte JPEG header `FF D8 FF E0` round-trips. -/
theorem C9_base64_roundtrip_witness :
    b64decodeString (encode_image_to_base64 [255, 216, 255, 224])
      = some [255, 216, 255, 224] :=
  C9_base64_roundtrip [255, 216, 255, 224] (by decide)

/-- C10: field-line recognition is case-sensitive and anchored at the
first character: a line that does not begin with any of the four labels
exactly (e.g. leading whitespace before `PROGRESS:`, or lowercase
`progress:`) contributes nothing — the scan state is left exactly as it
was. -/
theorem C10_recognition_anchored (st : ScanState) (line : String)
    (h1 : pyStartsWith line "PROGRESS:" = false)
    (h2 : pyStartsWith line "COMPLETED_PARTS:" = false)
    (h3 : pyStartsWith line "MISSING_PARTS:" = false)
    (h4 : pyStartsWith line "NOTES:" = false) :
    scanLine st line = st := by
  simp [scanLine, h1, h2, h3, h4]

/-- C10 witness: a line with leading whitespace before `PROGRESS:` and a
lowercase `progress:` line both leave previously scanned values
untouched, even though each contains a field label. -/
theorem C10_recognition_anchored_witness :
    scanLine ⟨7, "a", "b", "c"⟩ " PROGRESS: 50" = ⟨7, "a", "b", "c"⟩
  ∧ scanLine ⟨7, "a", "b", "c"⟩ "progress: 45" = ⟨7, "a", "b", "c"⟩ :=
  ⟨C10_recognition_anchored ⟨7, "a", "b", "c"⟩ " PROGRESS: 50"
      (by decide) (by decide) (by decide) (by decide),
   C10_recognition_anchored ⟨7, "a", "b", "c"⟩ "progress: 45"
      (by decide) (by decide) (by decide) (by decide)⟩

end Brickz
